import Mathlib

/-!
Verification of the DuckDuckGo search-and-scrape script (`src/main.py`).

The script reads queries from a text file, loads a DuckDuckGo results page
per query, collects candidate result anchors in three tiers, selects one
candidate (preferring caller-supplied domain substrings), and either
extracts its href (`extract_preferred_href`) or clicks it and reports the
resulting URL (`click_first_h3_or_fallback`), appending one line per query
to an output file.

The browser is a black box; we model the page as the data the script can
observe through Selenium calls: the list of `h3` elements (each with its
optional nearest anchor ancestor and optional descendant anchor), the list
of `a.result__a` elements, the list of `a[href]` elements, and the value
`get_attribute("href")` returns for each element.  Elements are compared
by identity (Selenium `WebElement.__eq__` compares element ids), modelled
by a numeric id.  Because the DOM may mutate between the collection phase
and the selection/return phase (the code reads `get_attribute` in both),
the model carries one href value per element for each phase: `hrefC` for
reads made while collecting, `hrefS` for reads made while selecting or
returning.  A static page has the two equal.
-/

/-- Python `needle in hay` on strings: substring containment. -/
def strContains (hay needle : String) : Bool :=
  (List.range (hay.data.length + 1)).any
    (fun i => needle.data.isPrefixOf (hay.data.drop i))

/-- Python `s.startswith(p)`. -/
def pyStartswith (s p : String) : Bool :=
  p.data.isPrefixOf s.data

/-- ASCII lowering of one character, as Python `str.lower` acts on ASCII. -/
def chLower (c : Char) : Char :=
  if c.toNat ≥ 65 && c.toNat ≤ 90 then Char.ofNat (c.toNat + 32) else c

/-- Python `s.lower()` (ASCII fragment). -/
def strLower (s : String) : String :=
  ⟨s.data.map chLower⟩

/-- Python `s.strip()`: drop leading and trailing whitespace. -/
def pyStrip (s : String) : String :=
  ⟨((s.data.dropWhile Char.isWhitespace).reverse.dropWhile Char.isWhitespace).reverse⟩

/-- A DOM anchor element handle; equality is element identity. -/
structure Elem where
  eid : Nat
deriving DecidableEq, Repr

/-- An `h3` element as the collector probes it: the anchor found by
`./ancestor::a[1]` if any, and the anchor found by a descendant
`a` tag search if any. -/
structure H3 where
  ancestorAnchor : Option Elem
  descendantAnchor : Option Elem
deriving DecidableEq, Repr

/-- Observable state of a loaded results page. -/
structure Page where
  /-- result of `driver.find_elements(By.TAG_NAME, "h3")` -/
  h3s : List H3
  /-- result of `driver.find_elements(By.CSS_SELECTOR, "a.result__a")` -/
  ddgLinks : List Elem
  /-- result of `driver.find_elements(By.CSS_SELECTOR, "a[href]")` -/
  anchors : List Elem
  /-- `el.get_attribute("href")` during the collection phase -/
  hrefC : Nat → Option String
  /-- `el.get_attribute("href")` during the selection / return phase -/
  hrefS : Nat → Option String

/-- Python `if href and href.startswith("http")`: the href attribute is
present, non-empty and starts with `http`. -/
def truthyHttp (href : Option String) : Bool :=
  match href with
  | some s => (s != "") && pyStartswith s "http"
  | none => false

/-- Python `if href and href.startswith("http") and "duckduckgo.com" not in
href`: the tier-3 filter of both collectors. -/
def truthyHttpNonDdg (href : Option String) : Bool :=
  match href with
  | some s => (s != "") && pyStartswith s "http" && !(strContains s "duckduckgo.com")
  | none => false

/-- Tier 1 of `extract_preferred_href` (src/main.py lines 179-195): for each
`h3`, take its nearest anchor ancestor, else a descendant anchor; keep it if
its href is truthy and starts with `http`.  No duplicate check is made. -/
def gatherH3AnchorsE (page : Page) : List H3 → List Elem → List Elem
  | [], acc => acc
  | h :: rest, acc =>
    match h.ancestorAnchor.orElse (fun _ => h.descendantAnchor) with
    | some a =>
      if truthyHttp (page.hrefC a.eid) then gatherH3AnchorsE page rest (acc ++ [a])
      else gatherH3AnchorsE page rest acc
    | none => gatherH3AnchorsE page rest acc

/-- Tier 2 of `extract_preferred_href` (lines 197-206): `a.result__a`
anchors with a truthy `http` href, appended only if not already present. -/
def gatherDdgLinksE (page : Page) : List Elem → List Elem → List Elem
  | [], acc => acc
  | a :: rest, acc =>
    if truthyHttp (page.hrefC a.eid) then
      if a ∈ acc then gatherDdgLinksE page rest acc
      else gatherDdgLinksE page rest (acc ++ [a])
    else gatherDdgLinksE page rest acc

/-- Tier 3 of `extract_preferred_href` (lines 208-217): all `a[href]`
anchors with a truthy `http` href not containing `"duckduckgo.com"`,
appended only if not already present. -/
def gatherGenericAnchorsE (page : Page) : List Elem → List Elem → List Elem
  | [], acc => acc
  | a :: rest, acc =>
    if truthyHttpNonDdg (page.hrefC a.eid) then
      if a ∈ acc then gatherGenericAnchorsE page rest acc
      else gatherGenericAnchorsE page rest (acc ++ [a])
    else gatherGenericAnchorsE page rest acc

/-- The full candidate list built by `extract_preferred_href`:
tier 1, then tier 2, then tier 3, each appending to the same list. -/
def collectCandidatesE (page : Page) : List Elem :=
  gatherGenericAnchorsE page page.anchors
    (gatherDdgLinksE page page.ddgLinks
      (gatherH3AnchorsE page page.h3s []))

/-- The inner loop of both preferred scans: some pre-lowered preferred
domain is a substring of the candidate's lowered selection-phase href
(`(el.get_attribute("href") or "").lower()`). -/
def anyPrefHit (page : Page) (lowerPrefDomains : List String) (el : Elem) : Bool :=
  lowerPrefDomains.any (fun p => strContains (strLower ((page.hrefS el.eid).getD "")) p)

/-- A candidate matches the caller's preferred-domain list: the inner loop
run against the list lowered once, as both functions lower it before
scanning. -/
def prefMatch (page : Page) (prefDomains : List String) (el : Elem) : Bool :=
  anyPrefHit page (prefDomains.map strLower) el

/-- The preferred-domain scan of `extract_preferred_href` (lines 220-227):
outer loop over candidates, inner loop over the pre-lowered preferred
domains, returning the first candidate whose lowered href contains some
preferred domain.  `lowerPrefDomains` is already lowered, as the code
lowers the list once before the loop. -/
def scanPreferredE (page : Page) (lowerPrefDomains : List String) : List Elem → Option Elem
  | [] => none
  | el :: rest =>
    if anyPrefHit page lowerPrefDomains el then some el
    else scanPreferredE page lowerPrefDomains rest

/-- The candidate ultimately chosen by `extract_preferred_href`: the
preferred scan runs only when both the preferred list and the candidate
list are non-empty (Python `if preferred_domains and candidates:`); on no
match the first candidate is used; `none` when there are no candidates. -/
def selectCandidateE (page : Page) (cands : List Elem) (prefDomains : List String) : Option Elem :=
  let pre :=
    if !prefDomains.isEmpty && !cands.isEmpty then
      scanPreferredE page (prefDomains.map strLower) cands
    else none
  match pre with
  | some el => some el
  | none => cands.head?

/-- `extract_preferred_href` (lines 166-233).  The Python returns the
selection-phase `get_attribute("href")` of the chosen candidate with `or
""` (both in the preferred branch and in the first-candidate fallback),
and the sentinel string when no candidate exists. -/
def extract_preferred_href (page : Page) (prefDomains : List String) : String :=
  let cands := collectCandidatesE page
  match selectCandidateE page cands prefDomains with
  | some el => (page.hrefS el.eid).getD ""
  | none => "ERROR: no suitable link found"

/-!
Navigate mode.  `click_first_h3_or_fallback` (src/main.py lines 66-163)
duplicates the three collection tiers and the preferred scan textually, so
they are transcribed a second time below, and proved equal to the extract
side in the refinement theorem.  Beyond the page observations, the function
touches driver state the page model cannot predict; `NavBehavior` supplies
those outcomes, and every call the Python code does not wrap in a catching
try/except is modelled as a possible `Except.error`.  The code catches only:
`WebDriverException` around `el.click()` (lines 132-136), any `Exception`
around the window switch (lines 140-143), `TimeoutException` around the
render wait (lines 80-85) and the settling wait (lines 144-147), and the
per-tier `Exception` handlers of the collection code.  Left uncaught are:
the `driver.window_handles` reads (lines 77 and 138), the selection-phase
`el.get_attribute("href")` reads (line 154 in the preferred scan and line
131 in `_open_element` — e.g. a stale element), the fallback
`driver.get(href)` (line 136), and the `driver.current_url` reads (line 145
— a `WebDriverException` raised inside the wait's lambda is not a
`TimeoutException` and propagates — and line 148).
-/

/-- Tier 1 of `click_first_h3_or_fallback` (lines 89-105). -/
def gatherH3AnchorsC (page : Page) : List H3 → List Elem → List Elem
  | [], acc => acc
  | h :: rest, acc =>
    match h.ancestorAnchor.orElse (fun _ => h.descendantAnchor) with
    | some a =>
      if truthyHttp (page.hrefC a.eid) then gatherH3AnchorsC page rest (acc ++ [a])
      else gatherH3AnchorsC page rest acc
    | none => gatherH3AnchorsC page rest acc

/-- Tier 2 of `click_first_h3_or_fallback` (lines 107-116). -/
def gatherDdgLinksC (page : Page) : List Elem → List Elem → List Elem
  | [], acc => acc
  | a :: rest, acc =>
    if truthyHttp (page.hrefC a.eid) then
      if a ∈ acc then gatherDdgLinksC page rest acc
      else gatherDdgLinksC page rest (acc ++ [a])
    else gatherDdgLinksC page rest acc

/-- Tier 3 of `click_first_h3_or_fallback` (lines 118-127). -/
def gatherGenericAnchorsC (page : Page) : List Elem → List Elem → List Elem
  | [], acc => acc
  | a :: rest, acc =>
    if truthyHttpNonDdg (page.hrefC a.eid) then
      if a ∈ acc then gatherGenericAnchorsC page rest acc
      else gatherGenericAnchorsC page rest (acc ++ [a])
    else gatherGenericAnchorsC page rest acc

/-- The candidate list built by `click_first_h3_or_fallback`. -/
def collectCandidatesC (page : Page) : List Elem :=
  gatherGenericAnchorsC page page.anchors
    (gatherDdgLinksC page page.ddgLinks
      (gatherH3AnchorsC page page.h3s []))

/-- The preferred-domain scan of `click_first_h3_or_fallback`
(lines 150-157): `(el.get_attribute("href") or "").lower()` against each
pre-lowered preferred domain, first matching candidate wins. -/
def scanPreferredC (page : Page) (lowerPrefDomains : List String) : List Elem → Option Elem
  | [] => none
  | el :: rest =>
    if anyPrefHit page lowerPrefDomains el then some el
    else scanPreferredC page lowerPrefDomains rest

/-- The candidate `click_first_h3_or_fallback` passes to `_open_element`:
preferred scan when both lists are non-empty, else / on no match the first
candidate (line 160-161), `none` when there are no candidates. -/
def selectCandidateC (page : Page) (cands : List Elem) (prefDomains : List String) : Option Elem :=
  let pre :=
    if !prefDomains.isEmpty && !cands.isEmpty then
      scanPreferredC page (prefDomains.map strLower) cands
    else none
  match pre with
  | some el => some el
  | none => cands.head?

/-- A Python exception escaping navigate mode: an uncaught
`WebDriverException` from a window-handles read, a stale-element
`get_attribute("href")` read, the fallback `driver.get(href)` (e.g. its
page-load timeout), or a `current_url` read. -/
inductive PyErr where
  | webDriverExn
deriving DecidableEq, Repr

/-- Driver behaviour during one navigate-mode call, one field per
WebDriver call whose exception the code does not catch, plus the caught
`el.click()` failure and the URL finally read back. -/
structure NavBehavior where
  /-- a `driver.window_handles` read (line 77 or 138) raises, e.g. the
  session is gone -/
  handlesRaise : Bool
  /-- `el.get_attribute("href")` on this element raises (line 131 or 154),
  e.g. the element is stale -/
  attrRaises : Nat → Bool
  /-- `el.click()` raises `WebDriverException` — which the code catches -/
  clickFails : Nat → Bool
  /-- the fallback `driver.get` on this URL raises (line 136) -/
  getRaises : String → Bool
  /-- a `driver.current_url` read raises (inside the settling wait's lambda
  at line 145 — only `TimeoutException` is caught there — or at line 148) -/
  urlRaises : Bool
  /-- the `driver.current_url` finally read back after acting on a given
  element (the sleep, the caught window switch and the settling wait are
  absorbed into this read) -/
  finalUrl : Nat → String

/-- `_open_element` (lines 130-148): read the element's href (line 131, can
raise uncaught on a stale element — then `driver.get` is never run); try to
click, and on `WebDriverException` fall back to `driver.get(href)` when the
href is truthy (line 136, uncaught); read `driver.window_handles` (line
138, uncaught); switch windows with its own failure caught (lines 139-143);
run the settling wait, whose timeout is caught but whose `current_url` read
can raise uncaught (lines 144-147); return `driver.current_url` (line 148,
uncaught). -/
def openElement (nb : NavBehavior) (page : Page) (el : Elem) : Except PyErr String :=
  if nb.attrRaises el.eid then Except.error PyErr.webDriverExn
  else
    let href := page.hrefS el.eid
    let clickStep : Except PyErr Unit :=
      if nb.clickFails el.eid then
        match href with
        | some h =>
          if h != "" then
            if nb.getRaises h then Except.error PyErr.webDriverExn
            else Except.ok ()
          else Except.ok ()
        | none => Except.ok ()
      else Except.ok ()
    match clickStep with
    | Except.error e => Except.error e
    | Except.ok _ =>
      if nb.handlesRaise then Except.error PyErr.webDriverExn
      else if nb.urlRaises then Except.error PyErr.webDriverExn
      else Except.ok (nb.finalUrl el.eid)

/-- The preferred scan as navigate mode actually runs it (lines 153-157):
each iteration re-reads `el.get_attribute("href")` outside any try/except,
so a stale element raises out of the scan before anything is clicked.  When
no read raises it agrees with `scanPreferredC`. -/
def scanPreferredNav (nb : NavBehavior) (page : Page) (lowerPrefDomains : List String) :
    List Elem → Except PyErr (Option Elem)
  | [] => Except.ok none
  | el :: rest =>
    if nb.attrRaises el.eid then Except.error PyErr.webDriverExn
    else if anyPrefHit page lowerPrefDomains el then Except.ok (some el)
    else scanPreferredNav nb page lowerPrefDomains rest

/-- `click_first_h3_or_fallback` (lines 66-163): read `before_handles`
(line 77, uncaught); wait for results to render with the timeout caught
(lines 80-85; its `find_elements` probes are page observations here, as in
the tiers); collect candidates; scan for a preferred candidate (with the
line-154 attribute reads able to raise); open the matched one, else the
first one, else return the sentinel string. -/
def click_first_h3_or_fallback (nb : NavBehavior) (page : Page) (prefDomains : List String) :
    Except PyErr String :=
  if nb.handlesRaise then Except.error PyErr.webDriverExn
  else
    let cands := collectCandidatesC page
    match
      (if !prefDomains.isEmpty && !cands.isEmpty then
        scanPreferredNav nb page (prefDomains.map strLower) cands
      else Except.ok none) with
    | Except.error e => Except.error e
    | Except.ok (some el) => openElement nb page el
    | Except.ok none =>
      match cands with
      | [] => Except.ok "ERROR: no suitable link found"
      | c :: _ => openElement nb page c

/-!
The driver loop.  `read_queries` (src/main.py lines 51-58) strips each line
of the input file and keeps the non-blank ones.  `main` (lines 236-298)
then, per query, loads the search page — a load failure writes an error
line and continues — runs one of the two modes inside a try/except that
converts any escaping exception into an error line, and appends exactly one
`query<TAB>result` line.  What the browser does for the i-th query is a
black box here, abstracted as a `QueryOutcome` per (index, query).
-/

/-- The accumulation loop of `read_queries`: append `line.strip()` when it
is non-empty. -/
def read_queries_loop : List String → List String → List String
  | [], qs => qs
  | line :: rest, qs =>
    if pyStrip line != "" then read_queries_loop rest (qs ++ [pyStrip line])
    else read_queries_loop rest qs

/-- `read_queries` (lines 51-58), on the file already split into lines. -/
def read_queries (lines : List String) : List String :=
  read_queries_loop lines []

/-- Outcome of processing one query in `main`: the search-page load raised
(line 264), the mode call raised and was converted to a sentinel (line
276-277), or a result string came back. -/
inductive QueryOutcome where
  | loadFail (msg : String)
  | procExn (msg : String)
  | result (url : String)

/-- The single line `write_result` appends for a query (lines 61-63,
266, 277, 280). -/
def resultLine (q : String) (oc : QueryOutcome) : String :=
  match oc with
  | QueryOutcome.loadFail m => q ++ "\t" ++ ("ERROR: could not load search page: " ++ m)
  | QueryOutcome.procExn m => q ++ "\t" ++ ("ERROR: exception during processing: " ++ m)
  | QueryOutcome.result u => q ++ "\t" ++ u

/-- The lines `main` appends to the output file over a whole run that
reaches its end: nothing when there are no queries (lines 251-253), else
one line per query, the browser's behaviour for the i-th query supplied by
`beh`. -/
def mainOutputs (lines : List String) (beh : Nat → String → QueryOutcome) : List String :=
  let queries := read_queries lines
  if queries.isEmpty then []
  else queries.enum.map (fun iq => resultLine iq.2 (beh iq.1 iq.2))

/-!
Effect-traced extract mode.  To state that `extract_preferred_href` does
not mutate the page, the same code is transcribed once more with every
Selenium call threaded through the page state explicitly, in the order the
source performs them; each call is a pure read `readPage`.  The projection
lemmas below prove the traced run returns exactly
`extract_preferred_href` and leaves the state untouched.
-/

/-- A Selenium read: observe part of the page, state unchanged. -/
def readPage {α : Type} (f : Page → α) (p : Page) : α × Page :=
  (f p, p)

/-- Traced tier 1 of `extract_preferred_href`. -/
def gatherH3AnchorsRun : List H3 → List Elem → Page → List Elem × Page
  | [], acc, p => (acc, p)
  | h :: rest, acc, p =>
    match h.ancestorAnchor.orElse (fun _ => h.descendantAnchor) with
    | some a =>
      match readPage (fun q => q.hrefC a.eid) p with
      | (href, p1) =>
        if truthyHttp href then gatherH3AnchorsRun rest (acc ++ [a]) p1
        else gatherH3AnchorsRun rest acc p1
    | none => gatherH3AnchorsRun rest acc p

/-- Traced tier 2 of `extract_preferred_href`. -/
def gatherDdgLinksRun : List Elem → List Elem → Page → List Elem × Page
  | [], acc, p => (acc, p)
  | a :: rest, acc, p =>
    match readPage (fun q => q.hrefC a.eid) p with
    | (href, p1) =>
      if truthyHttp href then
        if a ∈ acc then gatherDdgLinksRun rest acc p1
        else gatherDdgLinksRun rest (acc ++ [a]) p1
      else gatherDdgLinksRun rest acc p1

/-- Traced tier 3 of `extract_preferred_href`. -/
def gatherGenericAnchorsRun : List Elem → List Elem → Page → List Elem × Page
  | [], acc, p => (acc, p)
  | a :: rest, acc, p =>
    match readPage (fun q => q.hrefC a.eid) p with
    | (href, p1) =>
      if truthyHttpNonDdg href then
        if a ∈ acc then gatherGenericAnchorsRun rest acc p1
        else gatherGenericAnchorsRun rest (acc ++ [a]) p1
      else gatherGenericAnchorsRun rest acc p1

/-- Traced preferred scan: reads each candidate's href once and returns
`raw or ""` on a match, as the source does. -/
def scanPreferredRun (lowerPrefDomains : List String) : List Elem → Page → Option String × Page
  | [], p => (none, p)
  | el :: rest, p =>
    match readPage (fun q => q.hrefS el.eid) p with
    | (raw, p1) =>
      if lowerPrefDomains.any (fun pr => strContains (strLower (raw.getD "")) pr) then
        (some (raw.getD ""), p1)
      else scanPreferredRun lowerPrefDomains rest p1

/-- Traced `extract_preferred_href`: the full sequence of Selenium calls
the function makes, threaded through the page state. -/
def extractRun (prefDomains : List String) (p : Page) : String × Page :=
  match readPage Page.h3s p with
  | (h3s, p1) =>
  match gatherH3AnchorsRun h3s [] p1 with
  | (c1, p2) =>
  match readPage Page.ddgLinks p2 with
  | (ddg, p3) =>
  match gatherDdgLinksRun ddg c1 p3 with
  | (c2, p4) =>
  match readPage Page.anchors p4 with
  | (ancs, p5) =>
  match gatherGenericAnchorsRun ancs c2 p5 with
  | (cands, p6) =>
  match
    (if !prefDomains.isEmpty && !cands.isEmpty then
      scanPreferredRun (prefDomains.map strLower) cands p6
    else (none, p6)) with
  | (some s, p7) => (s, p7)
  | (none, p7) =>
    match cands with
    | [] => ("ERROR: no suitable link found", p7)
    | c :: _ =>
      match readPage (fun q => q.hrefS c.eid) p7 with
      | (raw, p8) => (raw.getD "", p8)

/-!
Spec-side definition.  The specification describes the tier-3 filter as
keeping anchors "whose host is not the search engine's own domain"; the
code instead tests whether `"duckduckgo.com"` occurs anywhere in the href.
To compare the two, the host of a URL is defined here following the spec's
wording, not the code. -/

/-- Drop everything up to and including the first `://` scheme separator. -/
def afterScheme : List Char → List Char
  | [] => []
  | c :: rest =>
    if [':', '/', '/'].isPrefixOf (c :: rest) then rest.drop 2
    else afterScheme rest

/-- The host of a URL as the spec sentence for the tier-3 filter refers to
it: the text between the scheme separator and the next `/`, `?` or `#`.
This follows the spec's words; the code has no host extraction. -/
def urlHost (u : String) : String :=
  ⟨(afterScheme u.data).takeWhile (fun c => !(c == '/' || c == '?' || c == '#'))⟩

/-! Concrete inputs used by counterexamples and witnesses. -/

/-- A page whose only element is one generic anchor whose href starts with
`http`, has host `example.com`, and mentions `duckduckgo.com` only in a
query parameter. -/
def pageQueryParamDdg : Page where
  h3s := []
  ddgLinks := []
  anchors := [⟨1⟩]
  hrefC := fun _ => some "http://example.com/?ref=duckduckgo.com"
  hrefS := fun _ => some "http://example.com/?ref=duckduckgo.com"

/-- A page whose only element is one ordinary external generic anchor. -/
def pageOneAnchor : Page where
  h3s := []
  ddgLinks := []
  anchors := [⟨1⟩]
  hrefC := fun _ => some "http://a.com/x"
  hrefS := fun _ => some "http://a.com/x"

/-- Driver behaviour where the click raises and the fallback `driver.get`
also raises (e.g. the page-load timeout expires); every other call is
healthy. -/
def navBothFail : NavBehavior where
  handlesRaise := false
  attrRaises := fun _ => false
  clickFails := fun _ => true
  getRaises := fun _ => true
  urlRaises := false
  finalUrl := fun _ => "http://landed.example/"

/-- Driver behaviour where every element is stale: each
`get_attribute("href")` read raises; nothing is ever clicked or loaded. -/
def navStaleElem : NavBehavior where
  handlesRaise := false
  attrRaises := fun _ => true
  clickFails := fun _ => false
  getRaises := fun _ => false
  urlRaises := false
  finalUrl := fun _ => "http://landed.example/"

/-- Driver behaviour where the click raises but the fallback `driver.get`
succeeds and no other call raises. -/
def navClickFailsGetOk : NavBehavior where
  handlesRaise := false
  attrRaises := fun _ => false
  clickFails := fun _ => true
  getRaises := fun _ => false
  urlRaises := false
  finalUrl := fun _ => "http://landed.example/"

/-- A page with no h3 headings, no result links and no anchors at all. -/
def pageEmpty : Page where
  h3s := []
  ddgLinks := []
  anchors := []
  hrefC := fun _ => none
  hrefS := fun _ => none

/-- A page where two candidates have distinct hrefs and only the second
contains `b.com`. -/
def pageTwoHrefs : Page where
  h3s := []
  ddgLinks := []
  anchors := []
  hrefC := fun n => if n = 2 then some "http://b.com/x" else some "http://a.com/x"
  hrefS := fun n => if n = 2 then some "http://b.com/x" else some "http://a.com/x"

/-- A page where one anchor is the `./ancestor::a[1]` of two distinct h3
headings, as happens when a single result card anchor wraps two headings. -/
def pageSharedAncestor : Page where
  h3s := [⟨some ⟨1⟩, none⟩, ⟨some ⟨1⟩, none⟩]
  ddgLinks := []
  anchors := []
  hrefC := fun _ => some "http://a.com/x"
  hrefS := fun _ => some "http://a.com/x"

/-- A page exercising all three tiers with overlapping elements but a
duplicate-free tier 1. -/
def pageThreeTiers : Page where
  h3s := [⟨some ⟨1⟩, none⟩]
  ddgLinks := [⟨1⟩, ⟨2⟩]
  anchors := [⟨2⟩, ⟨3⟩]
  hrefC := fun _ => some "http://a.com/x"
  hrefS := fun _ => some "http://a.com/x"

/-- A page whose single anchor has a collection-phase href but whose href
attribute reads as absent by the time the selection phase re-reads it. -/
def pageHrefVanishes : Page where
  h3s := []
  ddgLinks := []
  anchors := [⟨1⟩]
  hrefC := fun _ => some "http://a.com/x"
  hrefS := fun _ => none

/-! Helper lemmas about the collector. -/

/-- Membership in the tier-3 output: an element is in the result exactly
when it was already accumulated or appears among the scanned anchors and
passes the tier-3 filter. -/
theorem mem_gatherGenericAnchorsE (page : Page) :
    ∀ (l acc : List Elem) (a : Elem),
      a ∈ gatherGenericAnchorsE page l acc ↔
        a ∈ acc ∨ (a ∈ l ∧ truthyHttpNonDdg (page.hrefC a.eid) = true) := by
  intro l
  induction l with
  | nil => intro acc a; simp [gatherGenericAnchorsE]
  | cons b rest ih =>
    intro acc a
    simp only [gatherGenericAnchorsE]
    cases hb : truthyHttpNonDdg (page.hrefC b.eid) with
    | true =>
      rw [if_pos rfl]
      by_cases hmem : b ∈ acc
      · rw [if_pos hmem, ih]
        constructor
        · rintro (h | ⟨h1, h2⟩)
          · exact Or.inl h
          · exact Or.inr ⟨List.mem_cons_of_mem _ h1, h2⟩
        · rintro (h | ⟨h1, h2⟩)
          · exact Or.inl h
          · rcases List.mem_cons.mp h1 with rfl | h1
            · exact Or.inl hmem
            · exact Or.inr ⟨h1, h2⟩
      · rw [if_neg hmem, ih]
        simp only [List.mem_append, List.mem_cons]
        constructor
        · rintro ((h | (rfl | h0)) | ⟨h1, h2⟩)
          · exact Or.inl h
          · exact Or.inr ⟨Or.inl rfl, hb⟩
          · exact absurd h0 (List.not_mem_nil a)
          · exact Or.inr ⟨Or.inr h1, h2⟩
        · rintro (h | ⟨rfl | h1, h2⟩)
          · exact Or.inl (Or.inl h)
          · exact Or.inl (Or.inr (Or.inl rfl))
          · exact Or.inr ⟨h1, h2⟩
    | false =>
      rw [if_neg (by simp [hb]), ih]
      constructor
      · rintro (h | ⟨h1, h2⟩)
        · exact Or.inl h
        · exact Or.inr ⟨List.mem_cons_of_mem _ h1, h2⟩
      · rintro (h | ⟨h1, h2⟩)
        · exact Or.inl h
        · rcases List.mem_cons.mp h1 with rfl | h1
          · rw [hb] at h2; exact absurd h2 (by simp)
          · exact Or.inr ⟨h1, h2⟩

/-- Appending one fresh element keeps a list duplicate-free. -/
theorem nodup_append_singleton {α : Type} {l : List α} {a : α}
    (h : l.Nodup) (hmem : a ∉ l) : (l ++ [a]).Nodup := by
  rw [List.nodup_append]
  refine ⟨h, List.nodup_singleton a, ?_⟩
  intro x hx hx'
  rw [List.mem_singleton] at hx'
  exact hmem (hx' ▸ hx)

/-- Tier 2 preserves freedom from duplicates: it checks membership before
every append. -/
theorem nodup_gatherDdgLinksE (page : Page) :
    ∀ (l acc : List Elem), acc.Nodup → (gatherDdgLinksE page l acc).Nodup := by
  intro l
  induction l with
  | nil => intro acc h; simpa [gatherDdgLinksE] using h
  | cons b rest ih =>
    intro acc h
    simp only [gatherDdgLinksE]
    cases hb : truthyHttp (page.hrefC b.eid) with
    | true =>
      rw [if_pos rfl]
      by_cases hmem : b ∈ acc
      · rw [if_pos hmem]; exact ih acc h
      · rw [if_neg hmem]; exact ih _ (nodup_append_singleton h hmem)
    | false => rw [if_neg (by simp [hb])]; exact ih acc h

/-- Tier 3 preserves freedom from duplicates: it checks membership before
every append. -/
theorem nodup_gatherGenericAnchorsE (page : Page) :
    ∀ (l acc : List Elem), acc.Nodup → (gatherGenericAnchorsE page l acc).Nodup := by
  intro l
  induction l with
  | nil => intro acc h; simpa [gatherGenericAnchorsE] using h
  | cons b rest ih =>
    intro acc h
    simp only [gatherGenericAnchorsE]
    cases hb : truthyHttpNonDdg (page.hrefC b.eid) with
    | true =>
      rw [if_pos rfl]
      by_cases hmem : b ∈ acc
      · rw [if_pos hmem]; exact ih acc h
      · rw [if_neg hmem]; exact ih _ (nodup_append_singleton h hmem)
    | false => rw [if_neg (by simp [hb])]; exact ih acc h

/-! Helper lemmas about the preferred scan. -/

/-- When some candidate matches, the scan returns the first matching
candidate: a decomposition of the list with all earlier candidates
non-matching. -/
theorem scanPreferredE_first (page : Page) (lp : List String) :
    ∀ (cands : List Elem) (el : Elem), el ∈ cands → anyPrefHit page lp el = true →
      ∃ e pre suf, scanPreferredE page lp cands = some e ∧ anyPrefHit page lp e = true ∧
        cands = pre ++ e :: suf ∧ ∀ x ∈ pre, anyPrefHit page lp x = false := by
  intro cands
  induction cands with
  | nil => intro el h; exact absurd h (List.not_mem_nil el)
  | cons b rest ih =>
    intro el hmem hhit
    cases hb : anyPrefHit page lp b with
    | true =>
      exact ⟨b, [], rest, by simp [scanPreferredE, hb], hb, by simp, by simp⟩
    | false =>
      have hmem' : el ∈ rest := by
        rcases List.mem_cons.mp hmem with rfl | h
        · rw [hb] at hhit; exact absurd hhit (by simp)
        · exact h
      obtain ⟨e, pre, suf, hscan, he, heq, hall⟩ := ih el hmem' hhit
      refine ⟨e, b :: pre, suf, ?_, he, by simp [heq], ?_⟩
      · rw [scanPreferredE, if_neg (by simp [hb])]; exact hscan
      · intro x hx
        rcases List.mem_cons.mp hx with rfl | hx
        · exact hb
        · exact hall x hx

/-- When no candidate matches, the scan returns nothing. -/
theorem scanPreferredE_none (page : Page) (lp : List String) :
    ∀ (cands : List Elem), (∀ el ∈ cands, anyPrefHit page lp el = false) →
      scanPreferredE page lp cands = none := by
  intro cands
  induction cands with
  | nil => intro _; rfl
  | cons b rest ih =>
    intro h
    rw [scanPreferredE, if_neg (by simp [h b (List.mem_cons_self b rest)])]
    exact ih (fun el hel => h el (List.mem_cons_of_mem _ hel))

/-! Projection lemmas: every traced phase returns its pure counterpart and
leaves the page untouched, because every Selenium call it makes is a read. -/

theorem gatherH3AnchorsRun_eq (page : Page) :
    ∀ (l : List H3) (acc : List Elem),
      gatherH3AnchorsRun l acc page = (gatherH3AnchorsE page l acc, page) := by
  intro l
  induction l with
  | nil => intro acc; rfl
  | cons h rest ih =>
    intro acc
    simp only [gatherH3AnchorsRun, gatherH3AnchorsE, readPage]
    cases h.ancestorAnchor.orElse (fun _ => h.descendantAnchor) with
    | some a => cases htr : truthyHttp (page.hrefC a.eid) <;> simp [htr, ih]
    | none => exact ih acc

theorem gatherDdgLinksRun_eq (page : Page) :
    ∀ (l acc : List Elem),
      gatherDdgLinksRun l acc page = (gatherDdgLinksE page l acc, page) := by
  intro l
  induction l with
  | nil => intro acc; rfl
  | cons a rest ih =>
    intro acc
    simp only [gatherDdgLinksRun, gatherDdgLinksE, readPage]
    cases htr : truthyHttp (page.hrefC a.eid) <;>
      by_cases hmem : a ∈ acc <;> simp [htr, hmem, ih]

theorem gatherGenericAnchorsRun_eq (page : Page) :
    ∀ (l acc : List Elem),
      gatherGenericAnchorsRun l acc page = (gatherGenericAnchorsE page l acc, page) := by
  intro l
  induction l with
  | nil => intro acc; rfl
  | cons a rest ih =>
    intro acc
    simp only [gatherGenericAnchorsRun, gatherGenericAnchorsE, readPage]
    cases htr : truthyHttpNonDdg (page.hrefC a.eid) <;>
      by_cases hmem : a ∈ acc <;> simp [htr, hmem, ih]

theorem scanPreferredRun_eq (page : Page) (lp : List String) :
    ∀ (cands : List Elem),
      scanPreferredRun lp cands page =
        ((scanPreferredE page lp cands).map (fun el => (page.hrefS el.eid).getD ""), page) := by
  intro cands
  induction cands with
  | nil => rfl
  | cons el rest ih =>
    simp only [scanPreferredRun, scanPreferredE, readPage]
    have hpred : (lp.any fun pr => strContains (strLower ((page.hrefS el.eid).getD "")) pr) =
        anyPrefHit page lp el := rfl
    rw [hpred]
    cases hhit : anyPrefHit page lp el <;> simp [hhit, ih]

/-- The traced run computes exactly `extract_preferred_href` and returns
the page unchanged. -/
theorem extractRun_eq (prefDomains : List String) (p : Page) :
    extractRun prefDomains p = (extract_preferred_href p prefDomains, p) := by
  simp only [extractRun, readPage, gatherH3AnchorsRun_eq, gatherDdgLinksRun_eq,
    gatherGenericAnchorsRun_eq]
  simp only [extract_preferred_href, selectCandidateE, collectCandidatesE]
  cases hb : (!prefDomains.isEmpty &&
      !(gatherGenericAnchorsE p p.anchors
        (gatherDdgLinksE p p.ddgLinks (gatherH3AnchorsE p p.h3s []))).isEmpty) with
  | true =>
    rw [if_pos rfl, if_pos rfl, scanPreferredRun_eq]
    cases hscan : scanPreferredE p (prefDomains.map strLower)
        (gatherGenericAnchorsE p p.anchors
          (gatherDdgLinksE p p.ddgLinks (gatherH3AnchorsE p p.h3s []))) with
    | some el => simp
    | none =>
      simp only [Option.map_none]
      cases hcands : gatherGenericAnchorsE p p.anchors
          (gatherDdgLinksE p p.ddgLinks (gatherH3AnchorsE p p.h3s [])) with
      | nil => simp [hcands]
      | cons c cs => simp [hcands, readPage]
  | false =>
    rw [if_neg (by simp), if_neg (by simp)]
    cases hcands : gatherGenericAnchorsE p p.anchors
        (gatherDdgLinksE p p.ddgLinks (gatherH3AnchorsE p p.h3s [])) with
    | nil => simp [hcands]
    | cons c cs => simp [hcands, readPage]

/-! Helper lemma for the driver loop. -/

theorem read_queries_loop_length :
    ∀ (lines qs : List String),
      (read_queries_loop lines qs).length =
        qs.length + (lines.filter (fun l => pyStrip l != "")).length := by
  intro lines
  induction lines with
  | nil => intro qs; simp [read_queries_loop]
  | cons l rest ih =>
    intro qs
    simp only [read_queries_loop]
    cases hl : (pyStrip l != "") with
    | true =>
      rw [if_pos rfl, ih]
      simp [List.filter_cons, hl, List.length_append]
      omega
    | false =>
      rw [if_neg (by simp), ih]
      simp [List.filter_cons, hl]

/-! The click-mode collector and selector coincide with the extract-mode
ones: the source duplicates the code textually. -/

theorem gatherH3AnchorsC_eq_E (page : Page) :
    ∀ (l : List H3) (acc : List Elem),
      gatherH3AnchorsC page l acc = gatherH3AnchorsE page l acc := by
  intro l
  induction l with
  | nil => intro acc; rfl
  | cons h rest ih =>
    intro acc
    simp only [gatherH3AnchorsC, gatherH3AnchorsE]
    cases h.ancestorAnchor.orElse (fun _ => h.descendantAnchor) with
    | some a => cases htr : truthyHttp (page.hrefC a.eid) <;> simp [htr, ih]
    | none => exact ih acc

theorem gatherDdgLinksC_eq_E (page : Page) :
    ∀ (l acc : List Elem), gatherDdgLinksC page l acc = gatherDdgLinksE page l acc := by
  intro l
  induction l with
  | nil => intro acc; rfl
  | cons a rest ih =>
    intro acc
    simp only [gatherDdgLinksC, gatherDdgLinksE]
    cases htr : truthyHttp (page.hrefC a.eid) <;>
      by_cases hmem : a ∈ acc <;> simp [htr, hmem, ih]

theorem gatherGenericAnchorsC_eq_E (page : Page) :
    ∀ (l acc : List Elem),
      gatherGenericAnchorsC page l acc = gatherGenericAnchorsE page l acc := by
  intro l
  induction l with
  | nil => intro acc; rfl
  | cons a rest ih =>
    intro acc
    simp only [gatherGenericAnchorsC, gatherGenericAnchorsE]
    cases htr : truthyHttpNonDdg (page.hrefC a.eid) <;>
      by_cases hmem : a ∈ acc <;> simp [htr, hmem, ih]

theorem scanPreferredC_eq_E (page : Page) (lp : List String) :
    ∀ (cands : List Elem), scanPreferredC page lp cands = scanPreferredE page lp cands := by
  intro cands
  induction cands with
  | nil => rfl
  | cons el rest ih =>
    simp only [scanPreferredC, scanPreferredE]
    cases hhit : anyPrefHit page lp el <;> simp [hhit, ih]

theorem collectCandidatesC_eq_E (page : Page) :
    collectCandidatesC page = collectCandidatesE page := by
  simp only [collectCandidatesC, collectCandidatesE, gatherH3AnchorsC_eq_E,
    gatherDdgLinksC_eq_E, gatherGenericAnchorsC_eq_E]

theorem selectCandidateC_eq_E (page : Page) (cands : List Elem) (prefDomains : List String) :
    selectCandidateC page cands prefDomains = selectCandidateE page cands prefDomains := by
  simp only [selectCandidateC, selectCandidateE, scanPreferredC_eq_E]

/-! The claims. -/

/-- Claim C1: for every candidate sequence and every non-empty
preferred-domain list, the selector returns the first candidate in
collector order whose lowercased URL contains some lowercased preferred
domain, immediately on the first such match (candidates in the outer loop,
domains in the inner loop, so an earlier candidate wins over an earlier
domain). -/
theorem claim_C1_selector_first_preferred
    (page : Page) (prefDomains : List String) (cands : List Elem) (el : Elem)
    (hp : prefDomains ≠ []) (hmem : el ∈ cands)
    (hm : prefMatch page prefDomains el = true) :
    ∃ e pre suf, selectCandidateE page cands prefDomains = some e ∧
      prefMatch page prefDomains e = true ∧
      cands = pre ++ e :: suf ∧ ∀ x ∈ pre, prefMatch page prefDomains x = false := by
  obtain ⟨e, pre, suf, hscan, he, heq, hall⟩ :=
    scanPreferredE_first page (prefDomains.map strLower) cands el hmem hm
  refine ⟨e, pre, suf, ?_, he, heq, hall⟩
  have h1 : prefDomains.isEmpty = false := by
    cases prefDomains with
    | nil => exact absurd rfl hp
    | cons _ _ => rfl
  have h2 : cands.isEmpty = false := by
    cases cands with
    | nil => exact absurd hmem (List.not_mem_nil el)
    | cons _ _ => rfl
  simp [selectCandidateE, h1, h2, hscan]

/-- Witness for C1 at a concrete input: candidates with hrefs
`http://a.com/x`, `http://b.com/x` and preferred list `["b.com"]` select
the second candidate. -/
theorem claim_C1_witness :
    ∃ e pre suf,
      selectCandidateE pageTwoHrefs [⟨1⟩, ⟨2⟩] ["b.com"] = some e ∧
      prefMatch pageTwoHrefs ["b.com"] e = true ∧
      ([⟨1⟩, ⟨2⟩] : List Elem) = pre ++ e :: suf ∧
      ∀ x ∈ pre, prefMatch pageTwoHrefs ["b.com"] x = false :=
  claim_C1_selector_first_preferred pageTwoHrefs ["b.com"] [⟨1⟩, ⟨2⟩] ⟨2⟩
    (by decide) (by decide) (by decide)

/-- Counterexample to claim C2: the code's tier-3 filter is a substring
test on the whole URL, not a host test.  An anchor with href
`http://example.com/?ref=duckduckgo.com` — host `example.com` — is
dropped by the collector, though the claim says anchors whose host is a
different domain are kept even when the engine's domain appears elsewhere
in the URL. -/
theorem claim_C2_counterexample :
    pageQueryParamDdg.anchors = [⟨1⟩] ∧
    pageQueryParamDdg.hrefC 1 = some "http://example.com/?ref=duckduckgo.com" ∧
    pyStartswith "http://example.com/?ref=duckduckgo.com" "http" = true ∧
    urlHost "http://example.com/?ref=duckduckgo.com" ≠ "duckduckgo.com" ∧
    collectCandidatesE pageQueryParamDdg = [] :=
  ⟨rfl, rfl, by decide, by decide, by decide⟩

/-- Claim C2 as amended: in the third tier (isolated here by pages with no
h3 headings and no result links) an anchor is kept iff its href exists, is
non-empty, starts with `http`, and the string `duckduckgo.com` occurs
nowhere in the href — anchors whose host is a different domain are still
dropped when the engine's domain appears elsewhere in the URL. -/
theorem claim_C2_generic_anchor_filter
    (page : Page) (hH : page.h3s = []) (hD : page.ddgLinks = []) (a : Elem) :
    a ∈ collectCandidatesE page ↔
      a ∈ page.anchors ∧ ∃ h, page.hrefC a.eid = some h ∧ h ≠ "" ∧
        pyStartswith h "http" = true ∧ strContains h "duckduckgo.com" = false := by
  rw [collectCandidatesE, hH, hD]
  rw [show gatherDdgLinksE page [] (gatherH3AnchorsE page [] []) = [] from rfl]
  rw [mem_gatherGenericAnchorsE]
  simp only [List.not_mem_nil, false_or]
  constructor
  · rintro ⟨h1, h2⟩
    refine ⟨h1, ?_⟩
    cases hc : page.hrefC a.eid with
    | none => rw [hc] at h2; simp [truthyHttpNonDdg] at h2
    | some s =>
      rw [hc] at h2
      simp only [truthyHttpNonDdg, Bool.and_eq_true, bne_iff_ne, Bool.not_eq_true'] at h2
      exact ⟨s, rfl, h2.1.1, h2.1.2, h2.2⟩
  · rintro ⟨h1, s, hc, hne, hst, hdd⟩
    refine ⟨h1, ?_⟩
    rw [hc]
    simp [truthyHttpNonDdg, hne, hst, hdd]

/-- Witness for the amended C2 at a concrete page: an ordinary external
anchor is kept by tier 3. -/
theorem claim_C2_witness :
    (⟨1⟩ : Elem) ∈ collectCandidatesE pageOneAnchor ↔
      (⟨1⟩ : Elem) ∈ pageOneAnchor.anchors ∧ ∃ h, pageOneAnchor.hrefC 1 = some h ∧ h ≠ "" ∧
        pyStartswith h "http" = true ∧ strContains h "duckduckgo.com" = false :=
  claim_C2_generic_anchor_filter pageOneAnchor rfl rfl ⟨1⟩

/-- When no attribute read raises, the navigate-mode preferred scan agrees
with the pure transcription. -/
theorem scanPreferredNav_eq (nb : NavBehavior) (page : Page) (lp : List String)
    (hattr : ∀ n, nb.attrRaises n = false) :
    ∀ cands, scanPreferredNav nb page lp cands =
      Except.ok (scanPreferredC page lp cands) := by
  intro cands
  induction cands with
  | nil => rfl
  | cons el rest ih =>
    simp only [scanPreferredNav, scanPreferredC, hattr el.eid]
    cases hhit : anyPrefHit page lp el <;> simp [hhit, ih]

/-- Counterexample to claim C3: navigate mode can raise past the caller.
Two escapes at concrete inputs: when the click raises `WebDriverException`
and the fallback `driver.get(href)` itself raises (line 136, e.g. the
page-load timeout), and when the chosen element is stale, so the
`get_attribute("href")` read at line 131 raises before `driver.get` is
ever run — the code wraps only the `el.click()` call in try/except. -/
theorem claim_C3_counterexample :
    click_first_h3_or_fallback navBothFail pageOneAnchor [] =
        Except.error PyErr.webDriverExn ∧
    click_first_h3_or_fallback navStaleElem pageOneAnchor [] =
        Except.error PyErr.webDriverExn := ⟨rfl, rfl⟩

/-- Claim C3 as amended: `el.click()` failures are the one caught
element-interaction failure, degrading to a direct `driver.get`
navigation; provided none of the uncaught WebDriver calls raises — the
window-handles reads, the element's href attribute reads (a stale
element), the fallback `driver.get`, and the current-URL reads — the
operation never raises: it returns the current URL read after acting on
the chosen candidate, or the sentinel string when no candidate exists.
(When any of those calls raises, the exception propagates to `main`, which
records an error sentinel for the query.) -/
theorem claim_C3_no_raise_without_uncaught_webdriver_raise
    (page : Page) (nb : NavBehavior) (prefDomains : List String)
    (hhandles : nb.handlesRaise = false)
    (hattr : ∀ n, nb.attrRaises n = false)
    (hget : ∀ h, nb.getRaises h = false)
    (hurl : nb.urlRaises = false) :
    click_first_h3_or_fallback nb page prefDomains =
        Except.ok "ERROR: no suitable link found" ∨
    ∃ el, selectCandidateC page (collectCandidatesC page) prefDomains = some el ∧
      click_first_h3_or_fallback nb page prefDomains = Except.ok (nb.finalUrl el.eid) := by
  have hopen : ∀ el : Elem, openElement nb page el = Except.ok (nb.finalUrl el.eid) := by
    intro el
    simp only [openElement, hattr el.eid, hhandles, hurl, Bool.false_eq_true, if_false]
    cases hcf : nb.clickFails el.eid with
    | false => simp
    | true =>
      cases hh : page.hrefS el.eid with
      | none => simp
      | some h => cases hne : (h != "") <;> simp [hne, hget h]
  simp only [click_first_h3_or_fallback, hhandles, Bool.false_eq_true, if_false]
  cases hb : (!prefDomains.isEmpty && !(collectCandidatesC page).isEmpty) with
  | false =>
    rw [if_neg (by simp)]
    cases hcands : collectCandidatesC page with
    | nil => left; simp [hcands]
    | cons c cs =>
      right
      refine ⟨c, ?_, ?_⟩
      · rw [hcands] at hb
        simp at hb
        simp [selectCandidateC, hcands, hb]
      · simp [hcands, hopen c]
  | true =>
    rw [if_pos rfl, scanPreferredNav_eq nb page (prefDomains.map strLower) hattr]
    cases hscan : scanPreferredC page (prefDomains.map strLower) (collectCandidatesC page) with
    | some el =>
      right
      refine ⟨el, ?_, ?_⟩
      · simp [selectCandidateC, hb, hscan]
      · simp [hopen el]
    | none =>
      cases hcands : collectCandidatesC page with
      | nil => left; simp [hcands]
      | cons c cs =>
        right
        refine ⟨c, ?_, ?_⟩
        · rw [hcands] at hb hscan
          simp at hb
          simp [selectCandidateC, hcands, hb, hscan]
        · simp [hcands, hopen c]

/-- Witness for the amended C3 at a concrete input: the click fails, the
fallback `driver.get` succeeds, no other call raises, and no exception
escapes. -/
theorem claim_C3_witness :
    click_first_h3_or_fallback navClickFailsGetOk pageOneAnchor [] =
        Except.ok "ERROR: no suitable link found" ∨
    ∃ el, selectCandidateC pageOneAnchor (collectCandidatesC pageOneAnchor) [] = some el ∧
      click_first_h3_or_fallback navClickFailsGetOk pageOneAnchor [] =
        Except.ok (navClickFailsGetOk.finalUrl el.eid) :=
  claim_C3_no_raise_without_uncaught_webdriver_raise pageOneAnchor navClickFailsGetOk []
    rfl (fun _ => rfl) (fun _ => rfl) rfl

/-- Claim C4: whenever the three collection tiers produce zero candidates,
extract-only mode returns exactly the sentinel string. -/
theorem claim_C4_no_candidates_sentinel
    (page : Page) (prefDomains : List String)
    (hempty : collectCandidatesE page = []) :
    extract_preferred_href page prefDomains = "ERROR: no suitable link found" := by
  simp [extract_preferred_href, selectCandidateE, hempty]

/-- Witness for C4: a page with no headings, result links or anchors. -/
theorem claim_C4_witness :
    extract_preferred_href pageEmpty [] = "ERROR: no suitable link found" :=
  claim_C4_no_candidates_sentinel pageEmpty [] rfl

/-- Claim C5: when the preferred list is empty or no candidate matches it,
the selector returns the first candidate in collector order, and no
candidate at all for the empty candidate sequence (`head?` is `some` of
the first element on a non-empty list and `none` on the empty one). -/
theorem claim_C5_fallback_first_candidate
    (page : Page) (cands : List Elem) (prefDomains : List String)
    (h : prefDomains = [] ∨ ∀ el ∈ cands, prefMatch page prefDomains el = false) :
    selectCandidateE page cands prefDomains = cands.head? := by
  rcases h with rfl | hno
  · simp [selectCandidateE]
  · simp only [selectCandidateE]
    cases hb : (!prefDomains.isEmpty && !cands.isEmpty) with
    | false => simp
    | true =>
      rw [if_pos rfl,
        scanPreferredE_none page (prefDomains.map strLower) cands (fun el hel => hno el hel)]

/-- Witness for C5: two candidates and no preferred domains select the
first candidate. -/
theorem claim_C5_witness :
    selectCandidateE pageTwoHrefs [⟨1⟩, ⟨2⟩] [] = ([⟨1⟩, ⟨2⟩] : List Elem).head? :=
  claim_C5_fallback_first_candidate pageTwoHrefs [⟨1⟩, ⟨2⟩] [] (Or.inl rfl)

/-- Counterexample to claim C6: tier 1 performs no duplicate check, so one
anchor that is the `./ancestor::a[1]` of two h3 headings is collected
twice, and the candidate sequence has a duplicate. -/
theorem claim_C6_counterexample :
    collectCandidatesE pageSharedAncestor = [⟨1⟩, ⟨1⟩] ∧
    ¬ (collectCandidatesE pageSharedAncestor).Nodup := ⟨by decide, by decide⟩

/-- Claim C6 as amended: tiers 2 and 3 check membership before every
append, so the candidate sequence is duplicate-free (by element identity)
whenever tier 1 alone contributes no duplicate; tier 1 itself performs no
duplicate check. -/
theorem claim_C6_nodup_given_tier1_nodup
    (page : Page) (h1 : (gatherH3AnchorsE page page.h3s []).Nodup) :
    (collectCandidatesE page).Nodup :=
  nodup_gatherGenericAnchorsE page _ _ (nodup_gatherDdgLinksE page _ _ h1)

/-- Witness for the amended C6: a page exercising all three tiers with
overlapping elements but a duplicate-free tier 1 yields a duplicate-free
candidate sequence. -/
theorem claim_C6_witness : (collectCandidatesE pageThreeTiers).Nodup :=
  claim_C6_nodup_given_tier1_nodup pageThreeTiers (by decide)

/-- Claim C7: over a run that reaches its end, `main` appends exactly one
output line per non-blank input line — whatever the per-query browser
behaviour — and blank lines produce none. -/
theorem claim_C7_one_line_per_nonblank_query
    (lines : List String) (beh : Nat → String → QueryOutcome) :
    (mainOutputs lines beh).length =
      (lines.filter (fun l => pyStrip l != "")).length := by
  have hlen : (read_queries lines).length =
      (lines.filter (fun l => pyStrip l != "")).length := by
    simpa [read_queries] using read_queries_loop_length lines []
  simp only [mainOutputs]
  cases hq : (read_queries lines).isEmpty with
  | true =>
    rw [if_pos rfl]
    rw [List.isEmpty_iff] at hq
    simp [hq] at hlen
    simp [← hlen]
  | false =>
    rw [if_neg (by simp)]
    simpa using hlen

/-- Claim C8: extract-only mode mutates nothing — every browser call it
makes is a read, so the traced run returns the page unchanged — and
re-running it on that unchanged page yields the same URL string. -/
theorem claim_C8_idempotent_no_mutation (p : Page) (prefDomains : List String) :
    (extractRun prefDomains p).2 = p ∧
    (extractRun prefDomains ((extractRun prefDomains p).2)).1 =
      (extractRun prefDomains p).1 := by
  simp [extractRun_eq]

/-- Claim C9: when the chosen candidate's href attribute reads as absent at
return time, extract-only mode substitutes the empty string, which lacks
the `ERROR:` prefix; concretely, a page whose single collected anchor's
href vanishes between collection and return makes the function return
`""`. -/
theorem claim_C9_empty_string_on_vanished_href :
    (∀ (page : Page) (prefDomains : List String) (el : Elem),
        selectCandidateE page (collectCandidatesE page) prefDomains = some el →
        page.hrefS el.eid = none →
        extract_preferred_href page prefDomains = "") ∧
    (collectCandidatesE pageHrefVanishes = [⟨1⟩] ∧
      extract_preferred_href pageHrefVanishes [] = "" ∧
      pyStartswith (extract_preferred_href pageHrefVanishes []) "ERROR:" = false) := by
  constructor
  · intro page prefDomains el hsel hnone
    simp [extract_preferred_href, hsel, hnone]
  · exact ⟨by decide, by decide, by decide⟩

/-- Witness for C9: the concrete vanished-href page yields `""`. -/
theorem claim_C9_witness : extract_preferred_href pageHrefVanishes [] = "" :=
  claim_C9_empty_string_on_vanished_href.1 pageHrefVanishes [] ⟨1⟩ (by decide) rfl

/-- Claim C10: the candidate-collection and selection phases of navigate
mode and extract-only mode are equivalent: the same candidate sequence and
the same chosen candidate. -/
theorem claim_C10_click_extract_equivalent (page : Page) (prefDomains : List String) :
    collectCandidatesC page = collectCandidatesE page ∧
    selectCandidateC page (collectCandidatesC page) prefDomains =
      selectCandidateE page (collectCandidatesE page) prefDomains := by
  refine ⟨collectCandidatesC_eq_E page, ?_⟩
  rw [collectCandidatesC_eq_E, selectCandidateC_eq_E]
